import Mathlib

/-!
Shallow embedding of the Polycode polygonal-mesh core (`PolyMesh.h` and the
spec of its implementation).  The repository ships only the class header
`Core/Contents/Include/PolyMesh.h`; the method bodies (`PolyMesh.cpp`) and the
auxiliary value classes (`Vector3`, `Vertex`, `Polygon`) are not part of the
sampled sources, so every method body below is modelled from the spec, as its
doc comment records.  Scalars (`Number`, C++ `float`) are modelled as `ℚ`,
with an explicit computable square-root approximation standing in for the
floating-point `sqrt`.  Following the spec's design note on shared-vertex
topology, vertices live in an arena (a list) and polygons hold indices into
it.
-/

namespace Polycode

/-- Number is the scalar type of the engine (C++ float), modelled as `ℚ`. -/
abbrev Number : Type := ℚ

/-- Modelled from the spec: a 3-component vector (position, normal, tangent),
mirroring the missing `Vector3` value class. -/
structure Vector3 where
  x : Number
  y : Number
  z : Number
deriving DecidableEq, Repr

/-- Modelled from the spec: a 2-component vector (texture coordinate),
mirroring the missing `Vector2` value class. -/
structure Vector2 where
  x : Number
  y : Number
deriving DecidableEq, Repr

/-- Modelled from the spec: an RGBA color, mirroring the missing `Color`
value class. -/
structure Color where
  r : Number
  g : Number
  b : Number
  a : Number
deriving DecidableEq, Repr

namespace Vector3

/-- Componentwise vector addition. -/
def add (a b : Vector3) : Vector3 := ⟨a.x + b.x, a.y + b.y, a.z + b.z⟩

/-- Componentwise vector subtraction. -/
def sub (a b : Vector3) : Vector3 := ⟨a.x - b.x, a.y - b.y, a.z - b.z⟩

/-- Scalar multiplication. -/
def smul (c : Number) (a : Vector3) : Vector3 := ⟨c * a.x, c * a.y, c * a.z⟩

/-- Dot product. -/
def dot (a b : Vector3) : Number := a.x * b.x + a.y * b.y + a.z * b.z

/-- Cross product. -/
def cross (a b : Vector3) : Vector3 :=
  ⟨a.y * b.z - a.z * b.y, a.z * b.x - a.x * b.z, a.x * b.y - a.y * b.x⟩

/-- Squared Euclidean length. -/
def lengthSq (a : Vector3) : Number := a.x * a.x + a.y * a.y + a.z * a.z

/-- Zero vector. -/
def zero : Vector3 := ⟨0, 0, 0⟩

/-- Euclidean length, with `Rat.sqrt` as the computable model of the
floating-point square root. -/
def length (a : Vector3) : Number := Rat.sqrt a.lengthSq

/-- Modelled from the spec: normalization of a vector; a zero vector is left
unchanged (the spec's local recovery from numeric degeneracy). -/
def normalizeV (a : Vector3) : Vector3 :=
  if a.lengthSq = 0 then a else smul (1 / a.length) a

end Vector3

/-- Modelled from the spec: a vertex carries position, normal, tangent, color
and texture coordinate, mirroring the missing `Vertex` class. -/
structure Vertex where
  position : Vector3
  normal : Vector3
  tangent : Vector3
  color : Color
  texCoord : Vector2
deriving DecidableEq, Repr

/-- Modelled from the spec: the Euclidean distance between two vertices,
mirroring the missing `Vertex::distance`. -/
def Vertex.distance (v other : Vertex) : Number :=
  (v.position.sub other.position).length

/-- Embeds `VertexSorter` from `PolyMesh.h`: a comparator closed over a target
vertex. -/
structure VertexSorter where
  target : Vertex

/-- Embeds `VertexSorter::operator()` from `PolyMesh.h`: compares two vertices
by strict distance to the target. -/
def VertexSorter.call (s : VertexSorter) (v1 v2 : Vertex) : Bool :=
  decide (v1.distance s.target < v2.distance s.target)

/-- Modelled from the spec: a polygon is an ordered sequence of vertex
references; per the spec's design note on shared-vertex topology, references
are indices into the mesh's vertex arena. -/
structure Polygon where
  vertexIndices : List Nat
deriving DecidableEq, Repr

/-- Error kinds of the spec's error-handling design. -/
inductive MeshError where
  | loadError
  | invalidTopologyError
deriving DecidableEq, Repr

/-- Embeds the `Mesh` data model of `PolyMesh.h`: mesh type tag, the polygon
collection, the 16-slot render-array cache and its parallel dirty map, and the
vertex-color flag.  Following the spec's design note, vertices are stored in
an arena list and polygons hold indices into it.  A cached render array is
modelled as the flat list of scalars it holds (`none` when absent). -/
structure Mesh where
  meshType : Int
  vertices : List Vertex
  polygons : List Polygon
  arrayDirtyMap : Fin 16 → Bool
  renderDataArrays : Fin 16 → Option (List Number)
  useVertexColors : Bool

/-- Mesh type constant from `PolyMesh.h`. -/
def Mesh.QUAD_MESH : Int := 0

/-- Mesh type constant from `PolyMesh.h`. -/
def Mesh.TRI_MESH : Int := 1

/-- Mesh type constant from `PolyMesh.h`. -/
def Mesh.TRIFAN_MESH : Int := 2

/-- Mesh type constant from `PolyMesh.h`. -/
def Mesh.TRISTRIP_MESH : Int := 3

/-- Mesh type constant from `PolyMesh.h`. -/
def Mesh.LINE_MESH : Int := 4

/-- Mesh type constant from `PolyMesh.h`. -/
def Mesh.POINT_MESH : Int := 5

/-- Mesh type constant from `PolyMesh.h`. -/
def Mesh.LINE_STRIP_MESH : Int := 6

/-- Modelled from the spec: the face arity demanded by a mesh type — 3 for
triangles, 4 for quads, variable for fan, strip, line and point types. -/
def arityOk (meshType : Int) (n : Nat) : Bool :=
  if meshType = Mesh.TRI_MESH then decide (n = 3)
  else if meshType = Mesh.QUAD_MESH then decide (n = 4)
  else true

/-- Modelled from the spec: `Mesh::addPolygon` appends the polygon to the
collection in insertion order and sets every dirty flag to true; a polygon
whose vertex-reference count is inconsistent with the declared mesh type is
rejected with `InvalidTopologyError` at add time. -/
def Mesh.addPolygon (m : Mesh) (newPolygon : Polygon) : Except MeshError Mesh :=
  if arityOk m.meshType newPolygon.vertexIndices.length then
    Except.ok { m with
      polygons := m.polygons ++ [newPolygon],
      arrayDirtyMap := fun _ => true }
  else
    Except.error MeshError.invalidTopologyError

/-- State of the mesh after an `addPolygon` call as seen by the caller: the
new mesh on success, the untouched mesh on failure. -/
def Mesh.tryAddPolygon (m : Mesh) (p : Polygon) : Mesh :=
  match m.addPolygon p with
  | Except.ok m2 => m2
  | Except.error _ => m

/-- Modelled from the spec: `Mesh::clearMesh` releases all polygons and
vertices, resets all dirty flags to true and releases the render arrays. -/
def Mesh.clearMesh (m : Mesh) : Mesh :=
  { m with
    vertices := [],
    polygons := [],
    arrayDirtyMap := fun _ => true,
    renderDataArrays := fun _ => none }

/-- Modelled from the spec: `Mesh::setMeshType` changes the topology
interpretation without altering polygon or vertex storage and sets all dirty
flags. -/
def Mesh.setMeshType (m : Mesh) (newType : Int) : Mesh :=
  { m with meshType := newType, arrayDirtyMap := fun _ => true }

/-- Embeds `Mesh::getMeshType`. -/
def Mesh.getMeshType (m : Mesh) : Int := m.meshType

/-- Modelled from the spec: `Mesh::getPolygonCount` is the size of the polygon
collection. -/
def Mesh.getPolygonCount (m : Mesh) : Nat := m.polygons.length

/-- Modelled from the spec: `Mesh::getVertexCount` is the total number of
vertices of the mesh, the size of the vertex arena. -/
def Mesh.getVertexCount (m : Mesh) : Nat := m.vertices.length

/-- Sum of the position vectors of a vertex list. -/
def positionSum (vs : List Vertex) : Vector3 :=
  vs.foldl (fun acc v => acc.add v.position) Vector3.zero

/-- Modelled from the spec: the geometric center of a mesh, the average of
all vertex positions (zero for an empty mesh). -/
def Mesh.centroid (m : Mesh) : Vector3 :=
  Vector3.smul (1 / (m.vertices.length : Number)) (positionSum m.vertices)

/-- Modelled from the spec: `Mesh::recenterMesh` computes the average of all
vertex positions, subtracts it from every vertex and returns the offset that
was applied; the mutation marks every render array dirty. -/
def Mesh.recenterMesh (m : Mesh) : Mesh × Vector3 :=
  let c := m.centroid
  ({ m with
      vertices := m.vertices.map (fun v => { v with position := v.position.sub c }),
      arrayDirtyMap := fun _ => true }, c)

/-- Modelled from the spec: `Mesh::calculateBBox` returns the vector whose
components are the maximum absolute extent along each axis across all
vertices (a symmetric half-extent box). -/
def Mesh.calculateBBox (m : Mesh) : Vector3 :=
  m.vertices.foldl
    (fun acc v => ⟨max acc.x |v.position.x|, max acc.y |v.position.y|, max acc.z |v.position.z|⟩)
    Vector3.zero

/-- Modelled from the spec: `Mesh::getRadius` returns the distance from the
origin to the furthest vertex. -/
def Mesh.getRadius (m : Mesh) : Number :=
  m.vertices.foldl (fun acc v => max acc v.position.length) 0

/-- Modelled from the spec: the face normal of a polygon, the normalized
cross product of two edge vectors of its vertex ring; `none` for degenerate
faces (fewer than three vertices, dangling indices, or a zero-length cross
product), whose contribution is skipped rather than producing NaN. -/
def faceNormal (vs : List Vertex) (p : Polygon) : Option Vector3 :=
  match p.vertexIndices with
  | i0 :: i1 :: i2 :: _ =>
    match vs[i0]?, vs[i1]?, vs[i2]? with
    | some a, some b, some c =>
      let n := Vector3.cross (b.position.sub a.position) (c.position.sub a.position)
      if n.lengthSq = 0 then none else some n.normalizeV
    | _, _, _ => none
  | _ => none

/-- Overwrites the normal of the vertex stored at index `i` of the arena;
out-of-range indices are ignored. -/
def setVertexNormal (vs : List Vertex) (i : Nat) (n : Vector3) : List Vertex :=
  match vs[i]? with
  | some v => vs.set i { v with normal := n }
  | none => vs

/-- Modelled from the spec: flat shading — every polygon, in collection
order, writes its face normal to each of its vertices (last write wins on
shared vertices); degenerate faces are skipped. -/
def assignFlatNormals (vs : List Vertex) (ps : List Polygon) : List Vertex :=
  ps.foldl
    (fun acc p =>
      match faceNormal acc p with
      | some n => p.vertexIndices.foldl (fun a i => setVertexNormal a i n) acc
      | none => acc)
    vs

/-- Modelled from the spec: `Mesh::getConnectedFaces` yields the polygons of
the collection that reference the given vertex, in collection order. -/
def Mesh.getConnectedFaces (m : Mesh) (i : Nat) : List Polygon :=
  m.polygons.filter (fun p => p.vertexIndices.contains i)

/-- Rational approximation of pi used by the model of the trigonometric
helper functions. -/
def piQ : Number := 355 / 113

/-- Degrees to radians. -/
def degToRad (a : Number) : Number := a * piQ / 180

/-- Truncated Taylor series standing in for the floating-point cosine. -/
def cosQ (x : Number) : Number := 1 - x^2 / 2 + x^4 / 24 - x^6 / 720

/-- Truncated Taylor series standing in for the floating-point sine. -/
def sinQ (x : Number) : Number := x - x^3 / 6 + x^5 / 120 - x^7 / 5040

/-- Modelled from the spec: the crease-preserving smooth normal of vertex
`i` — the normalized average of the face normals of connected faces whose
angle to a reference face normal is within the smoothing angle (in degrees);
`none` when there is no usable contribution. -/
def smoothNormalAt (vs : List Vertex) (ps : List Polygon) (smoothAngle : Number) (i : Nat) :
    Option Vector3 :=
  let faces := ps.filter (fun p => p.vertexIndices.contains i)
  let normals := faces.filterMap (faceNormal vs)
  match normals with
  | [] => none
  | ref :: _ =>
    let included := normals.filter (fun n => decide (cosQ (degToRad smoothAngle) ≤ ref.dot n))
    let s := included.foldl Vector3.add Vector3.zero
    if s.lengthSq = 0 then none else some s.normalizeV

/-- Modelled from the spec: smooth shading — every vertex receives its
angle-filtered average normal when one exists. -/
def assignSmoothNormals (vs : List Vertex) (ps : List Polygon) (smoothAngle : Number) :
    List Vertex :=
  vs.mapIdx (fun i v =>
    match smoothNormalAt vs ps smoothAngle i with
    | some n => { v with normal := n }
    | none => v)

/-- Modelled from the spec: `Mesh::calculateNormals` recomputes vertex
normals, flat or smooth according to `smooth`, and marks every render array
dirty. -/
def Mesh.calculateNormals (m : Mesh) (smooth : Bool) (smoothAngle : Number) : Mesh :=
  { m with
    vertices :=
      if smooth then assignSmoothNormals m.vertices m.polygons smoothAngle
      else assignFlatNormals m.vertices m.polygons,
    arrayDirtyMap := fun _ => true }

/-- Modelled from the spec: the tangent of a polygon, built from two edge
vectors and their texture-coordinate deltas; `none` when the uv determinant
vanishes (degenerate parametrization, skipped). -/
def faceTangent (vs : List Vertex) (p : Polygon) : Option Vector3 :=
  match p.vertexIndices with
  | i0 :: i1 :: i2 :: _ =>
    match vs[i0]?, vs[i1]?, vs[i2]? with
    | some a, some b, some c =>
      let e1 := b.position.sub a.position
      let e2 := c.position.sub a.position
      let du1 := b.texCoord.x - a.texCoord.x
      let dv1 := b.texCoord.y - a.texCoord.y
      let du2 := c.texCoord.x - a.texCoord.x
      let dv2 := c.texCoord.y - a.texCoord.y
      let denom := du1 * dv2 - du2 * dv1
      if denom = 0 then none
      else some (Vector3.smul (1 / denom) ((Vector3.smul dv2 e1).sub (Vector3.smul dv1 e2)))
    | _, _, _ => none
  | _ => none

/-- Modelled from the spec: the per-vertex tangent, the normalized
accumulation of the tangents of the connected faces, with no angle-based
crease detection. -/
def tangentAt (vs : List Vertex) (ps : List Polygon) (i : Nat) : Option Vector3 :=
  let faces := ps.filter (fun p => p.vertexIndices.contains i)
  let tangents := faces.filterMap (faceTangent vs)
  let s := tangents.foldl Vector3.add Vector3.zero
  if s.lengthSq = 0 then none else some s.normalizeV

/-- Modelled from the spec: `Mesh::calculateTangents` recomputes the tangent
of every vertex and marks every render array dirty. -/
def Mesh.calculateTangents (m : Mesh) : Mesh :=
  { m with
    vertices :=
      m.vertices.mapIdx (fun i v =>
        match tangentAt m.vertices m.polygons i with
        | some t => { v with tangent := t }
        | none => v),
    arrayDirtyMap := fun _ => true }

/-- A scalar field of the binary mesh file: an integer (header counts,
vertex-reference counts, indices) or a floating-point number (vertex
attributes), in the file's field order. -/
inductive FileTok where
  | int (i : Int)
  | num (q : Number)
deriving DecidableEq, Repr

/-- Modelled from the spec: the vertex-table record of one vertex — position,
normal, tangent, color, texture coordinate, in that fixed field order. -/
def writeVertex (v : Vertex) : List FileTok :=
  [FileTok.num v.position.x, FileTok.num v.position.y, FileTok.num v.position.z,
   FileTok.num v.normal.x, FileTok.num v.normal.y, FileTok.num v.normal.z,
   FileTok.num v.tangent.x, FileTok.num v.tangent.y, FileTok.num v.tangent.z,
   FileTok.num v.color.r, FileTok.num v.color.g, FileTok.num v.color.b,
   FileTok.num v.color.a,
   FileTok.num v.texCoord.x, FileTok.num v.texCoord.y]

/-- Modelled from the spec: the polygon-table record of one polygon — its
vertex-reference count followed by that many indices into the vertex
table. -/
def writePolygon (p : Polygon) : List FileTok :=
  FileTok.int p.vertexIndices.length ::
    p.vertexIndices.map (fun i : Nat => FileTok.int i)

/-- Modelled from the spec: `Mesh::saveToFile` writes the header (mesh type
tag, polygon count, vertex count), then the vertex table, then the polygon
table. -/
def Mesh.saveToFile (m : Mesh) : List FileTok :=
  FileTok.int m.meshType :: FileTok.int m.polygons.length ::
    FileTok.int m.vertices.length ::
    (m.vertices.flatMap writeVertex ++ m.polygons.flatMap writePolygon)

/-- Reads one integer field. -/
def readInt (toks : List FileTok) : Except MeshError (Int × List FileTok) :=
  match toks with
  | FileTok.int i :: rest => Except.ok (i, rest)
  | _ => Except.error MeshError.loadError

/-- Reads one number field. -/
def readNum (toks : List FileTok) : Except MeshError (Number × List FileTok) :=
  match toks with
  | FileTok.num q :: rest => Except.ok (q, rest)
  | _ => Except.error MeshError.loadError

/-- Reads one vertex-table record in the fixed field order. -/
def readVertex (toks : List FileTok) : Except MeshError (Vertex × List FileTok) := do
  let (px, t) ← readNum toks
  let (py, t) ← readNum t
  let (pz, t) ← readNum t
  let (nx, t) ← readNum t
  let (ny, t) ← readNum t
  let (nz, t) ← readNum t
  let (tx, t) ← readNum t
  let (ty, t) ← readNum t
  let (tz, t) ← readNum t
  let (cr, t) ← readNum t
  let (cg, t) ← readNum t
  let (cb, t) ← readNum t
  let (ca, t) ← readNum t
  let (u, t) ← readNum t
  let (v, t) ← readNum t
  Except.ok (⟨⟨px, py, pz⟩, ⟨nx, ny, nz⟩, ⟨tx, ty, tz⟩, ⟨cr, cg, cb, ca⟩, ⟨u, v⟩⟩, t)

/-- Reads `n` vertex-table records. -/
def readVertices (n : Nat) (toks : List FileTok) :
    Except MeshError (List Vertex × List FileTok) :=
  match n with
  | 0 => Except.ok ([], toks)
  | n + 1 => do
    let (v, t) ← readVertex toks
    let (vs, t2) ← readVertices n t
    Except.ok (v :: vs, t2)

/-- Reads `n` vertex indices, validating each against the vertex-table
bound. -/
def readIndices (n : Nat) (numVertices : Int) (toks : List FileTok) :
    Except MeshError (List Nat × List FileTok) :=
  match n with
  | 0 => Except.ok ([], toks)
  | n + 1 => do
    let (i, t) ← readInt toks
    if 0 ≤ i ∧ i < numVertices then do
      let (is, t2) ← readIndices n numVertices t
      Except.ok (i.toNat :: is, t2)
    else Except.error MeshError.loadError

/-- Reads `n` polygon-table records, validating counts and indices. -/
def readPolygons (n : Nat) (numVertices : Int) (toks : List FileTok) :
    Except MeshError (List Polygon × List FileTok) :=
  match n with
  | 0 => Except.ok ([], toks)
  | n + 1 => do
    let (cnt, t) ← readInt toks
    if 0 ≤ cnt then do
      let (is, t2) ← readIndices cnt.toNat numVertices t
      let (ps, t3) ← readPolygons n numVertices t2
      Except.ok (Polygon.mk is :: ps, t3)
    else Except.error MeshError.loadError

/-- Scratch parse of a mesh file into header tag, vertex table and polygon
table: reads the header, validates that the mesh-type tag is supported and
the counts are non-negative, reads the vertex table and then the polygon
table (validating every index against the vertex-table bounds); any
malformed field fails with `LoadError`. -/
def parseMeshFile (toks : List FileTok) :
    Except MeshError (Int × List Vertex × List Polygon) := do
  let (t, r) ← readInt toks
  if 0 ≤ t ∧ t ≤ 6 then do
    let (np, r1) ← readInt r
    let (nv, r2) ← readInt r1
    if 0 ≤ np ∧ 0 ≤ nv then do
      let (vs, r3) ← readVertices nv.toNat r2
      let (ps, _) ← readPolygons np.toNat nv r3
      Except.ok (t, vs, ps)
    else Except.error MeshError.loadError
  else Except.error MeshError.loadError

/-- Freshly built mesh installed after a fully successful parse: every dirty
flag set, no cached arrays. -/
def freshMesh (t : Int) (vs : List Vertex) (ps : List Polygon) : Mesh :=
  { meshType := t,
    vertices := vs,
    polygons := ps,
    arrayDirtyMap := fun _ => true,
    renderDataArrays := fun _ => none,
    useVertexColors := false }

/-- Modelled from the spec: `Mesh::loadFromFile` parses the file into a
scratch structure and swaps in a freshly built mesh only on full success, so
a failed load leaves no partially built state. -/
def Mesh.loadFromFile (toks : List FileTok) : Except MeshError Mesh :=
  match parseMeshFile toks with
  | Except.ok (t, vs, ps) => Except.ok (freshMesh t vs ps)
  | Except.error e => Except.error e

/-- State of the target mesh after loading from a file, as seen by the
caller: the freshly loaded mesh on success, the untouched original on
failure. -/
def Mesh.loadMeshInto (toks : List FileTok) (m : Mesh) : Mesh :=
  match Mesh.loadFromFile toks with
  | Except.ok m2 => m2
  | Except.error _ => m

/-- A raw mesh file laid out per the spec's format, with the header counts
free to disagree with the table contents: mesh type tag, declared polygon and
vertex counts, vertex records, and polygon records of a declared count plus
raw integer indices. -/
def encodeFile (t np nv : Int) (vs : List Vertex) (ps : List (Int × List Int)) :
    List FileTok :=
  FileTok.int t :: FileTok.int np :: FileTok.int nv ::
    (vs.flatMap writeVertex ++
      ps.flatMap (fun pr => FileTok.int pr.1 :: pr.2.map (fun i => FileTok.int i)))

/-- Replaces the mesh geometry wholesale, as the procedural generators do
after clearing: fresh vertices and polygons, every dirty flag set, render
arrays released. -/
def Mesh.rebuildWith (m : Mesh) (vs : List Vertex) (ps : List Polygon) : Mesh :=
  { m with
    vertices := vs,
    polygons := ps,
    arrayDirtyMap := fun _ => true,
    renderDataArrays := fun _ => none }

/-- Fresh vertex of a generator: position and texture coordinate computed,
remaining attributes defaulted. -/
def mkVertex (p : Vector3) (uv : Vector2) : Vertex :=
  { position := p, normal := Vector3.zero, tangent := Vector3.zero,
    color := ⟨1, 1, 1, 1⟩, texCoord := uv }

/-- Vertices of a parametric grid of `rows + 1` by `cols + 1` sample points,
texture coordinates spanning the unit square. -/
def gridVertices (rows cols : Nat) (f : Nat → Nat → Vector3) : List Vertex :=
  (List.range (rows + 1)).flatMap (fun i =>
    (List.range (cols + 1)).map (fun j =>
      mkVertex (f i j) ⟨(j : Number) / (cols : Number), (i : Number) / (rows : Number)⟩))

/-- Quad faces of a parametric grid laid out by `gridVertices`. -/
def gridQuads (rows cols : Nat) : List Polygon :=
  (List.range rows).flatMap (fun i =>
    (List.range cols).map (fun j =>
      Polygon.mk
        [i * (cols + 1) + j, i * (cols + 1) + j + 1,
         (i + 1) * (cols + 1) + j + 1, (i + 1) * (cols + 1) + j]))

/-- Modelled from the spec: `Mesh::createPlane` clears the mesh and builds a
horizontal parametric plane of the given width and depth. -/
def Mesh.createPlane (m : Mesh) (w h : Number) : Mesh :=
  m.rebuildWith
    [mkVertex ⟨-w / 2, 0, -h / 2⟩ ⟨0, 0⟩, mkVertex ⟨w / 2, 0, -h / 2⟩ ⟨1, 0⟩,
     mkVertex ⟨w / 2, 0, h / 2⟩ ⟨1, 1⟩, mkVertex ⟨-w / 2, 0, h / 2⟩ ⟨0, 1⟩]
    [Polygon.mk [0, 1, 2, 3]]

/-- Modelled from the spec: `Mesh::createVPlane` clears the mesh and builds a
vertical parametric plane of the given width and height. -/
def Mesh.createVPlane (m : Mesh) (w h : Number) : Mesh :=
  m.rebuildWith
    [mkVertex ⟨-w / 2, -h / 2, 0⟩ ⟨0, 0⟩, mkVertex ⟨w / 2, -h / 2, 0⟩ ⟨1, 0⟩,
     mkVertex ⟨w / 2, h / 2, 0⟩ ⟨1, 1⟩, mkVertex ⟨-w / 2, h / 2, 0⟩ ⟨0, 1⟩]
    [Polygon.mk [0, 1, 2, 3]]

/-- Modelled from the spec: `Mesh::createTorus` clears the mesh and builds a
torus from its major/minor ring parametrization. -/
def Mesh.createTorus (m : Mesh) (radius tubeRadius : Number) (rSegments tSegments : Int) :
    Mesh :=
  let R := rSegments.toNat
  let T := tSegments.toNat
  m.rebuildWith
    (gridVertices R T (fun i j =>
      let u := 2 * piQ * (i : Number) / (R : Number)
      let v := 2 * piQ * (j : Number) / (T : Number)
      ⟨(radius + tubeRadius * cosQ v) * cosQ u,
       tubeRadius * sinQ v,
       (radius + tubeRadius * cosQ v) * sinQ u⟩))
    (gridQuads R T)

/-- One quad face of a box, with corner texture coordinates. -/
def boxFace (a b c d : Vector3) : List Vertex :=
  [mkVertex a ⟨0, 0⟩, mkVertex b ⟨1, 0⟩, mkVertex c ⟨1, 1⟩, mkVertex d ⟨0, 1⟩]

/-- Modelled from the spec: `Mesh::createBox` clears the mesh and builds an
axis-aligned box with per-face (unshared) corner vertices. -/
def Mesh.createBox (m : Mesh) (w d h : Number) : Mesh :=
  let x := w / 2
  let y := h / 2
  let z := d / 2
  m.rebuildWith
    (boxFace ⟨-x, -y, -z⟩ ⟨x, -y, -z⟩ ⟨x, -y, z⟩ ⟨-x, -y, z⟩ ++
     boxFace ⟨-x, y, -z⟩ ⟨-x, y, z⟩ ⟨x, y, z⟩ ⟨x, y, -z⟩ ++
     boxFace ⟨-x, -y, -z⟩ ⟨-x, y, -z⟩ ⟨x, y, -z⟩ ⟨x, -y, -z⟩ ++
     boxFace ⟨-x, -y, z⟩ ⟨x, -y, z⟩ ⟨x, y, z⟩ ⟨-x, y, z⟩ ++
     boxFace ⟨-x, -y, -z⟩ ⟨-x, -y, z⟩ ⟨-x, y, z⟩ ⟨-x, y, -z⟩ ++
     boxFace ⟨x, -y, -z⟩ ⟨x, y, -z⟩ ⟨x, y, z⟩ ⟨x, -y, z⟩)
    ((List.range 6).map (fun k =>
      Polygon.mk [4 * k, 4 * k + 1, 4 * k + 2, 4 * k + 3]))

/-- Modelled from the spec: `Mesh::createSphere` clears the mesh and builds a
latitude/longitude sphere parametrized by rings and segments. -/
def Mesh.createSphere (m : Mesh) (radius : Number) (numRings numSegments : Int) : Mesh :=
  let R := numRings.toNat
  let S := numSegments.toNat
  m.rebuildWith
    (gridVertices R S (fun i j =>
      let theta := piQ * (i : Number) / (R : Number)
      let phi := 2 * piQ * (j : Number) / (S : Number)
      ⟨radius * sinQ theta * cosQ phi,
       radius * cosQ theta,
       radius * sinQ theta * sinQ phi⟩))
    (gridQuads R S)

/-- Modelled from the spec: `Mesh::createCylinder` clears the mesh and builds
the lateral surface of a cylinder, with optional end caps of center-fanned
triangles. -/
def Mesh.createCylinder (m : Mesh) (height radius : Number) (numSegments : Int)
    (capped : Bool) : Mesh :=
  let S := numSegments.toNat
  let side := gridVertices 1 S (fun i j =>
    let phi := 2 * piQ * (j : Number) / (S : Number)
    ⟨radius * cosQ phi, height * (i : Number), radius * sinQ phi⟩)
  let base := 2 * (S + 1)
  let vs := if capped then
      side ++ [mkVertex ⟨0, 0, 0⟩ ⟨1 / 2, 1 / 2⟩, mkVertex ⟨0, height, 0⟩ ⟨1 / 2, 1 / 2⟩]
    else side
  let caps := if capped then
      (List.range S).flatMap (fun j =>
        [Polygon.mk [base, j, j + 1],
         Polygon.mk [base + 1, (S + 1) + j + 1, (S + 1) + j]])
    else []
  m.rebuildWith vs (gridQuads 1 S ++ caps)

/-- Modelled from the spec: `Mesh::createCone` clears the mesh and builds a
cone of base-circle triangles to an apex plus a fanned base cap. -/
def Mesh.createCone (m : Mesh) (height radius : Number) (numSegments : Int) : Mesh :=
  let S := numSegments.toNat
  let rim := (List.range (S + 1)).map (fun j =>
    let phi := 2 * piQ * (j : Number) / (S : Number)
    mkVertex ⟨radius * cosQ phi, 0, radius * sinQ phi⟩ ⟨(j : Number) / (S : Number), 0⟩)
  let apex := S + 1
  let center := S + 2
  m.rebuildWith
    (rim ++ [mkVertex ⟨0, height, 0⟩ ⟨1 / 2, 1⟩, mkVertex ⟨0, 0, 0⟩ ⟨1 / 2, 1 / 2⟩])
    ((List.range S).flatMap (fun j =>
      [Polygon.mk [j, j + 1, apex], Polygon.mk [center, j + 1, j]]))

/-- The attribute components one vertex contributes to the render array of
kind `k` (position, color, normal, texture coordinate, tangent; other slots
are unused). -/
def vertexAttribute (k : Nat) (v : Vertex) : List Number :=
  if k = 0 then [v.position.x, v.position.y, v.position.z]
  else if k = 1 then [v.color.r, v.color.g, v.color.b, v.color.a]
  else if k = 2 then [v.normal.x, v.normal.y, v.normal.z]
  else if k = 3 then [v.texCoord.x, v.texCoord.y]
  else if k = 4 then [v.tangent.x, v.tangent.y, v.tangent.z]
  else []

/-- Modelled from the spec: the full rebuild of render array kind `k`,
flattening every polygon's vertices for that attribute into a single
contiguous buffer. -/
def attributeData (m : Mesh) (k : Fin 16) : List Number :=
  m.polygons.flatMap (fun p =>
    p.vertexIndices.flatMap (fun i =>
      match m.vertices[i]? with
      | some v => vertexAttribute k.val v
      | none => []))

/-- Modelled from the spec: a renderer request for a dirty array kind `k`
rebuilds that array in full from current polygon/vertex data, replaces the
cached array and clears the flag. -/
def Mesh.rebuildArray (m : Mesh) (k : Fin 16) : Mesh :=
  { m with
    renderDataArrays := Function.update m.renderDataArrays k (some (attributeData m k)),
    arrayDirtyMap := Function.update m.arrayDirtyMap k false }

/-- Cache coherence: a clean dirty flag means the cached render array is
exactly the flattening of the current polygon/vertex data for that kind. -/
def Mesh.coherent (m : Mesh) : Prop :=
  ∀ k : Fin 16, m.arrayDirtyMap k = false →
    m.renderDataArrays k = some (attributeData m k)

instance (m : Mesh) : Decidable m.coherent := by
  unfold Mesh.coherent
  infer_instance

/-- The operations of the public mesh surface that the cache-coherence
discipline quantifies over. -/
inductive MeshOp where
  | addPolygon (p : Polygon)
  | clearMesh
  | setMeshType (t : Int)
  | createPlane (w h : Number)
  | createVPlane (w h : Number)
  | createTorus (radius tubeRadius : Number) (rSegments tSegments : Int)
  | createBox (w d h : Number)
  | createSphere (radius : Number) (numRings numSegments : Int)
  | createCylinder (height radius : Number) (numSegments : Int) (capped : Bool)
  | createCone (height radius : Number) (numSegments : Int)
  | calculateNormals (smooth : Bool) (smoothAngle : Number)
  | calculateTangents
  | recenterMesh
  | loadFromFile (toks : List FileTok)
  | rebuildArray (k : Fin 16)

/-- The state of the mesh after one operation of the public surface. -/
def applyOp (op : MeshOp) (m : Mesh) : Mesh :=
  match op with
  | MeshOp.addPolygon p => m.tryAddPolygon p
  | MeshOp.clearMesh => m.clearMesh
  | MeshOp.setMeshType t => m.setMeshType t
  | MeshOp.createPlane w h => m.createPlane w h
  | MeshOp.createVPlane w h => m.createVPlane w h
  | MeshOp.createTorus r tr rs ts => m.createTorus r tr rs ts
  | MeshOp.createBox w d h => m.createBox w d h
  | MeshOp.createSphere r nr ns => m.createSphere r nr ns
  | MeshOp.createCylinder h r ns c => m.createCylinder h r ns c
  | MeshOp.createCone h r ns => m.createCone h r ns
  | MeshOp.calculateNormals s a => m.calculateNormals s a
  | MeshOp.calculateTangents => m.calculateTangents
  | MeshOp.recenterMesh => m.recenterMesh.1
  | MeshOp.loadFromFile toks => Mesh.loadMeshInto toks m
  | MeshOp.rebuildArray k => m.rebuildArray k

/-- Whether an operation is a geometry mutation that actually fires on mesh
`m`: every listed mutator except an `addPolygon` rejected for bad arity and a
`loadFromFile` that fails; an array rebuild is a cache refresh, not a
mutation. -/
def mutates (op : MeshOp) (m : Mesh) : Bool :=
  match op with
  | MeshOp.addPolygon p => arityOk m.meshType p.vertexIndices.length
  | MeshOp.loadFromFile toks => (Mesh.loadFromFile toks).toBool
  | MeshOp.rebuildArray _ => false
  | _ => true

/-! Sample meshes used by counterexamples and witnesses. -/

/-- Empty triangle mesh with a fully dirty cache. -/
def sampleTriMesh : Mesh :=
  { meshType := Mesh.TRI_MESH,
    vertices := [],
    polygons := [],
    arrayDirtyMap := fun _ => true,
    renderDataArrays := fun _ => none,
    useVertexColors := false }

/-- A five-sided polygon, inconsistent with a triangle mesh. -/
def samplePentagon : Polygon := Polygon.mk [0, 1, 2, 3, 4]

/-- Claim C9: setMeshType installs the new type tag and marks every render
array dirty while leaving the polygon collection, the vertex arena, the
cached arrays and the vertex-color flag untouched. -/
theorem setMeshType_frame (m : Mesh) (t : Int) :
    (m.setMeshType t).meshType = t ∧
    (∀ k : Fin 16, (m.setMeshType t).arrayDirtyMap k = true) ∧
    (m.setMeshType t).polygons = m.polygons ∧
    (m.setMeshType t).vertices = m.vertices ∧
    (m.setMeshType t).renderDataArrays = m.renderDataArrays ∧
    (m.setMeshType t).useVertexColors = m.useVertexColors :=
  ⟨rfl, fun _ => rfl, rfl, rfl, rfl, rfl⟩

/-- Claim C4, counterexample: addPolygon does not append unconditionally —
adding a five-sided polygon to a triangle mesh leaves the polygon collection
without it (the add is rejected for inconsistent arity). -/
theorem addPolygon_counterexample :
    ¬ (sampleTriMesh.tryAddPolygon samplePentagon).polygons
        = sampleTriMesh.polygons ++ [samplePentagon] := by
  decide

/-- Claim C4 (amended): for a polygon whose vertex-reference count is
consistent with the declared mesh type, addPolygon appends it at the end of
the polygon collection and sets every dirty flag, changing nothing else. -/
theorem addPolygon_appends (m : Mesh) (p : Polygon)
    (h : arityOk m.meshType p.vertexIndices.length = true) :
    m.addPolygon p =
      Except.ok { m with polygons := m.polygons ++ [p], arrayDirtyMap := fun _ => true } := by
  unfold Mesh.addPolygon
  rw [if_pos h]

/-- Witness for C4: adding a triangle to a triangle mesh. -/
theorem addPolygon_appends_witness :
    arityOk sampleTriMesh.meshType (Polygon.mk [0, 1, 2]).vertexIndices.length = true ∧
    sampleTriMesh.addPolygon (Polygon.mk [0, 1, 2]) =
      Except.ok { sampleTriMesh with
        polygons := sampleTriMesh.polygons ++ [Polygon.mk [0, 1, 2]],
        arrayDirtyMap := fun _ => true } :=
  ⟨by decide, addPolygon_appends sampleTriMesh (Polygon.mk [0, 1, 2]) (by decide)⟩

/-- Claim C6: adding a polygon whose vertex-reference count is inconsistent
with the declared mesh type fails with InvalidTopologyError, and the failed
call leaves the mesh unchanged. -/
theorem addPolygon_arity_error (m : Mesh) (p : Polygon)
    (h : arityOk m.meshType p.vertexIndices.length = false) :
    m.addPolygon p = Except.error MeshError.invalidTopologyError ∧
    m.tryAddPolygon p = m := by
  have herr : m.addPolygon p = Except.error MeshError.invalidTopologyError := by
    unfold Mesh.addPolygon
    rw [if_neg (by simp [h])]
  refine ⟨herr, ?_⟩
  unfold Mesh.tryAddPolygon
  rw [herr]

/-- Witness for C6: a pentagon in a triangle mesh is rejected. -/
theorem addPolygon_arity_error_witness :
    arityOk sampleTriMesh.meshType samplePentagon.vertexIndices.length = false ∧
    (sampleTriMesh.addPolygon samplePentagon = Except.error MeshError.invalidTopologyError ∧
      sampleTriMesh.tryAddPolygon samplePentagon = sampleTriMesh) :=
  ⟨by decide, addPolygon_arity_error sampleTriMesh samplePentagon (by decide)⟩

lemma foldl_add_components (vs : List Vertex) (a : Vector3) :
    vs.foldl (fun acc v => acc.add v.position) a =
      ⟨a.x + (vs.map fun v => v.position.x).sum,
       a.y + (vs.map fun v => v.position.y).sum,
       a.z + (vs.map fun v => v.position.z).sum⟩ := by
  induction vs generalizing a with
  | nil => cases a; simp
  | cons v vs ih =>
    rw [List.foldl_cons, ih]
    simp only [List.map_cons, List.sum_cons, Vector3.add, Vector3.mk.injEq]
    refine ⟨by ring, by ring, by ring⟩

lemma positionSum_components (vs : List Vertex) :
    positionSum vs =
      ⟨(vs.map fun v => v.position.x).sum,
       (vs.map fun v => v.position.y).sum,
       (vs.map fun v => v.position.z).sum⟩ := by
  unfold positionSum
  rw [foldl_add_components]
  simp [Vector3.zero]

lemma sum_map_sub_const (f : Vertex → Number) (c : Number) (vs : List Vertex) :
    (vs.map fun v => f v - c).sum = (vs.map f).sum - vs.length * c := by
  induction vs with
  | nil => simp
  | cons v vs ih =>
    simp only [List.map_cons, List.sum_cons, List.length_cons, ih]
    push_cast
    ring

/-- Claim C3: for a mesh with at least one vertex, recenterMesh returns the
pre-call average of all vertex positions, and after subtracting that offset
from every vertex the positions sum exactly to the zero vector. -/
theorem recenterMesh_spec (m : Mesh) (h : m.vertices ≠ []) :
    m.recenterMesh.2 = m.centroid ∧
    positionSum m.recenterMesh.1.vertices = Vector3.zero := by
  refine ⟨rfl, ?_⟩
  have hn : (m.vertices.length : Number) ≠ 0 :=
    Nat.cast_ne_zero.mpr (fun h0 => h (List.length_eq_zero.mp h0))
  show positionSum
      (m.vertices.map fun v => { v with position := v.position.sub m.centroid }) =
    Vector3.zero
  rw [positionSum_components]
  simp only [List.map_map, Function.comp_def]
  have hx : m.centroid.x = 1 / (m.vertices.length : Number) * (positionSum m.vertices).x := rfl
  have hy : m.centroid.y = 1 / (m.vertices.length : Number) * (positionSum m.vertices).y := rfl
  have hz : m.centroid.z = 1 / (m.vertices.length : Number) * (positionSum m.vertices).z := rfl
  have px := positionSum_components m.vertices
  simp only [Vector3.sub, Vector3.zero, Vector3.mk.injEq]
  rw [sum_map_sub_const (fun v => v.position.x), sum_map_sub_const (fun v => v.position.y),
    sum_map_sub_const (fun v => v.position.z), hx, hy, hz, px]
  refine ⟨?_, ?_, ?_⟩ <;> field_simp

lemma foldl_bbox_components (vs : List Vertex) (a : Vector3) :
    vs.foldl
      (fun acc v =>
        ⟨max acc.x |v.position.x|, max acc.y |v.position.y|, max acc.z |v.position.z|⟩) a =
      ⟨(vs.map fun v => |v.position.x|).foldl max a.x,
       (vs.map fun v => |v.position.y|).foldl max a.y,
       (vs.map fun v => |v.position.z|).foldl max a.z⟩ := by
  induction vs generalizing a with
  | nil => cases a; rfl
  | cons v vs ih =>
    simp only [List.foldl_cons, List.map_cons]
    rw [ih]

lemma init_le_foldl_max (l : List Number) (a : Number) : a ≤ l.foldl max a := by
  induction l generalizing a with
  | nil => exact le_refl a
  | cons b l ih => exact le_trans (le_max_left a b) (ih (max a b))

lemma le_foldl_max (l : List Number) (a : Number) : ∀ x ∈ l, x ≤ l.foldl max a := by
  induction l generalizing a with
  | nil => simp
  | cons b l ih =>
    intro x hx
    rcases List.mem_cons.mp hx with rfl | hx
    · exact le_trans (le_max_right a x) (init_le_foldl_max l (max a x))
    · exact ih (max a b) x hx

lemma foldl_max_mem (l : List Number) (a : Number) :
    l.foldl max a = a ∨ l.foldl max a ∈ l := by
  induction l generalizing a with
  | nil => left; rfl
  | cons b l ih =>
    rcases ih (max a b) with h | h
    · rcases max_choice a b with hm | hm
      · left; rw [List.foldl_cons, h, hm]
      · right; rw [List.foldl_cons, h, hm]; exact List.mem_cons_self b l
    · right; exact List.mem_cons_of_mem b h

lemma foldl_max_abs_attained (g : Vertex → Number) (vs : List Vertex) (hvs : vs ≠ []) :
    ∃ v ∈ vs, (vs.map fun v => |g v|).foldl max 0 = |g v| := by
  rcases foldl_max_mem (vs.map fun v => |g v|) 0 with h | h
  · match vs, hvs with
    | v :: vs, _ =>
      refine ⟨v, List.mem_cons_self v vs, le_antisymm ?_ ?_⟩
      · rw [h]; exact abs_nonneg (g v)
      · exact le_foldl_max _ 0 |g v| (List.mem_map_of_mem _ (List.mem_cons_self v vs))
  · rcases List.mem_map.mp h with ⟨v, hv, heq⟩
    exact ⟨v, hv, heq.symm⟩

/-- Unit cube centered at the origin with half-extent one half: eight corner
vertices and six quad faces. -/
def unitCube : Mesh :=
  { meshType := Mesh.QUAD_MESH,
    vertices :=
      [mkVertex ⟨-(1 / 2), -(1 / 2), -(1 / 2)⟩ ⟨0, 0⟩,
       mkVertex ⟨1 / 2, -(1 / 2), -(1 / 2)⟩ ⟨1, 0⟩,
       mkVertex ⟨1 / 2, -(1 / 2), 1 / 2⟩ ⟨1, 1⟩,
       mkVertex ⟨-(1 / 2), -(1 / 2), 1 / 2⟩ ⟨0, 1⟩,
       mkVertex ⟨-(1 / 2), 1 / 2, -(1 / 2)⟩ ⟨0, 0⟩,
       mkVertex ⟨1 / 2, 1 / 2, -(1 / 2)⟩ ⟨1, 0⟩,
       mkVertex ⟨1 / 2, 1 / 2, 1 / 2⟩ ⟨1, 1⟩,
       mkVertex ⟨-(1 / 2), 1 / 2, 1 / 2⟩ ⟨0, 1⟩],
    polygons :=
      [Polygon.mk [0, 1, 2, 3], Polygon.mk [4, 7, 6, 5], Polygon.mk [0, 4, 5, 1],
       Polygon.mk [3, 2, 6, 7], Polygon.mk [0, 3, 7, 4], Polygon.mk [1, 5, 6, 2]],
    arrayDirtyMap := fun _ => true,
    renderDataArrays := fun _ => none,
    useVertexColors := false }

/-- Claim C8: calculateBBox of a non-empty mesh is, along each axis, the
maximum absolute value of that coordinate over all vertices — an upper bound
that is attained — and on the unit cube of half-extent one half it returns
the vector of halves. -/
theorem calculateBBox_spec (m : Mesh) (h : m.vertices ≠ []) :
    (∀ v ∈ m.vertices,
      |v.position.x| ≤ m.calculateBBox.x ∧ |v.position.y| ≤ m.calculateBBox.y ∧
        |v.position.z| ≤ m.calculateBBox.z) ∧
    (∃ v ∈ m.vertices, m.calculateBBox.x = |v.position.x|) ∧
    (∃ v ∈ m.vertices, m.calculateBBox.y = |v.position.y|) ∧
    (∃ v ∈ m.vertices, m.calculateBBox.z = |v.position.z|) ∧
    unitCube.calculateBBox = ⟨1 / 2, 1 / 2, 1 / 2⟩ := by
  have hbb : m.calculateBBox =
      ⟨(m.vertices.map fun v => |v.position.x|).foldl max 0,
       (m.vertices.map fun v => |v.position.y|).foldl max 0,
       (m.vertices.map fun v => |v.position.z|).foldl max 0⟩ := by
    unfold Mesh.calculateBBox
    rw [foldl_bbox_components]
    rfl
  have habs : |(1 / 2 : Number)| = 1 / 2 := abs_of_pos (by norm_num)
  have habsn : |(-(1 / 2) : Number)| = 1 / 2 := by rw [abs_neg]; exact habs
  have hcube : unitCube.calculateBBox = ⟨1 / 2, 1 / 2, 1 / 2⟩ := by
    show unitCube.vertices.foldl _ Vector3.zero = _
    rw [foldl_bbox_components]
    simp only [unitCube, mkVertex, List.map_cons, List.map_nil, habs, habsn,
      List.foldl_cons, List.foldl_nil, Vector3.zero]
    norm_num
  refine ⟨?_, ?_, ?_, ?_, hcube⟩
  · intro v hv
    rw [hbb]
    exact ⟨le_foldl_max _ 0 _ (List.mem_map_of_mem _ hv),
      le_foldl_max _ 0 _ (List.mem_map_of_mem _ hv),
      le_foldl_max _ 0 _ (List.mem_map_of_mem _ hv)⟩
  · rw [hbb]; exact foldl_max_abs_attained (fun v => v.position.x) m.vertices h
  · rw [hbb]; exact foldl_max_abs_attained (fun v => v.position.y) m.vertices h
  · rw [hbb]; exact foldl_max_abs_attained (fun v => v.position.z) m.vertices h

/-- Witness for C8, instantiated at the unit cube. -/
theorem calculateBBox_spec_witness :
    unitCube.vertices ≠ [] ∧
    ((∀ v ∈ unitCube.vertices,
      |v.position.x| ≤ unitCube.calculateBBox.x ∧
        |v.position.y| ≤ unitCube.calculateBBox.y ∧
        |v.position.z| ≤ unitCube.calculateBBox.z) ∧
    (∃ v ∈ unitCube.vertices, unitCube.calculateBBox.x = |v.position.x|) ∧
    (∃ v ∈ unitCube.vertices, unitCube.calculateBBox.y = |v.position.y|) ∧
    (∃ v ∈ unitCube.vertices, unitCube.calculateBBox.z = |v.position.z|) ∧
    unitCube.calculateBBox = ⟨1 / 2, 1 / 2, 1 / 2⟩) :=
  ⟨by decide, calculateBBox_spec unitCube (by decide)⟩

/-- Sorting a vertex list the way `std::sort` does with the `VertexSorter`
comparator: a vertex stays before another exactly when the comparator does
not order the later one strictly before it. -/
def sortVerticesByDistance (s : VertexSorter) (l : List Vertex) : List Vertex :=
  List.insertionSort (fun a b => s.call b a = false) l

/-- Claim C10: the VertexSorter comparator holds exactly when the first
vertex is strictly closer to the target than the second, and sorting a
vertex list with it orders vertices by ascending distance to the target. -/
theorem vertexSorter_spec (s : VertexSorter) :
    (∀ v1 v2 : Vertex, s.call v1 v2 = true ↔ v1.distance s.target < v2.distance s.target) ∧
    (∀ l : List Vertex,
      List.Sorted (fun a b => a.distance s.target ≤ b.distance s.target)
        (sortVerticesByDistance s l)) := by
  have hle : ∀ a b : Vertex,
      (s.call b a = false) ↔ a.distance s.target ≤ b.distance s.target := by
    intro a b
    simp [VertexSorter.call, not_lt]
  refine ⟨fun v1 v2 => by simp [VertexSorter.call], fun l => ?_⟩
  letI : IsTotal Vertex (fun a b => s.call b a = false) :=
    ⟨fun a b => by rw [hle, hle]; exact le_total _ _⟩
  letI : IsTrans Vertex (fun a b => s.call b a = false) :=
    ⟨fun a b c hab hbc => by
      rw [hle] at hab hbc ⊢
      exact le_trans hab hbc⟩
  have hs := List.sorted_insertionSort (fun a b => s.call b a = false) l
  exact List.Pairwise.imp (fun hab => (hle _ _).mp hab) hs

/-- Two-vertex sample mesh for the recentering witness. -/
def sampleMesh2 : Mesh :=
  { meshType := Mesh.TRI_MESH,
    vertices := [mkVertex ⟨1, 0, 0⟩ ⟨0, 0⟩, mkVertex ⟨3, 4, 0⟩ ⟨0, 0⟩],
    polygons := [],
    arrayDirtyMap := fun _ => true,
    renderDataArrays := fun _ => none,
    useVertexColors := false }

/-- Witness for C3, instantiated at a concrete two-vertex mesh. -/
theorem recenterMesh_spec_witness :
    sampleMesh2.vertices ≠ [] ∧
    (sampleMesh2.recenterMesh.2 = sampleMesh2.centroid ∧
      positionSum sampleMesh2.recenterMesh.1.vertices = Vector3.zero) :=
  ⟨by decide, recenterMesh_spec sampleMesh2 (by decide)⟩

/-- Claim C7: on a mesh consisting of a single non-degenerate triangular
polygon, flat-shading normal computation assigns to each of the three
vertices the same normal — the normalized cross product of two edge vectors
of the triangle — for any smoothing angle. -/
theorem calculateNormals_flat_triangle (m : Mesh) (a b c : Vertex) (angle : Number)
    (hv : m.vertices = [a, b, c]) (hp : m.polygons = [Polygon.mk [0, 1, 2]])
    (hn : (Vector3.cross (b.position.sub a.position)
        (c.position.sub a.position)).lengthSq ≠ 0) :
    (m.calculateNormals false angle).vertices =
      [{ a with normal := (Vector3.cross (b.position.sub a.position)
          (c.position.sub a.position)).normalizeV },
       { b with normal := (Vector3.cross (b.position.sub a.position)
          (c.position.sub a.position)).normalizeV },
       { c with normal := (Vector3.cross (b.position.sub a.position)
          (c.position.sub a.position)).normalizeV }] := by
  obtain ⟨mt, mv, mp, dm, rda, uvc⟩ := m
  have hv2 : mv = [a, b, c] := hv
  have hp2 : mp = [Polygon.mk [0, 1, 2]] := hp
  subst hv2
  subst hp2
  show assignFlatNormals [a, b, c] [Polygon.mk [0, 1, 2]] = _
  have hface : faceNormal [a, b, c] (Polygon.mk [0, 1, 2]) =
      if (Vector3.cross (b.position.sub a.position)
          (c.position.sub a.position)).lengthSq = 0 then none
      else some (Vector3.cross (b.position.sub a.position)
          (c.position.sub a.position)).normalizeV := rfl
  unfold assignFlatNormals
  simp only [List.foldl_cons, List.foldl_nil, hface, if_neg hn]
  rfl

/-- Concrete right triangle in the xy-plane for the C7 witness. -/
def sampleTriangleMesh : Mesh :=
  { meshType := Mesh.TRI_MESH,
    vertices := [mkVertex ⟨0, 0, 0⟩ ⟨0, 0⟩, mkVertex ⟨1, 0, 0⟩ ⟨1, 0⟩,
      mkVertex ⟨0, 1, 0⟩ ⟨0, 1⟩],
    polygons := [Polygon.mk [0, 1, 2]],
    arrayDirtyMap := fun _ => true,
    renderDataArrays := fun _ => none,
    useVertexColors := false }

/-- Witness for C7, instantiated at a concrete right triangle. -/
theorem calculateNormals_flat_triangle_witness :
    (Vector3.cross
        ((mkVertex ⟨1, 0, 0⟩ ⟨1, 0⟩).position.sub (mkVertex ⟨0, 0, 0⟩ ⟨0, 0⟩).position)
        ((mkVertex ⟨0, 1, 0⟩ ⟨0, 1⟩).position.sub
          (mkVertex ⟨0, 0, 0⟩ ⟨0, 0⟩).position)).lengthSq ≠ 0 ∧
    (sampleTriangleMesh.calculateNormals false 90).vertices =
      [{ mkVertex ⟨0, 0, 0⟩ ⟨0, 0⟩ with normal := (Vector3.cross
          ((mkVertex ⟨1, 0, 0⟩ ⟨1, 0⟩).position.sub (mkVertex ⟨0, 0, 0⟩ ⟨0, 0⟩).position)
          ((mkVertex ⟨0, 1, 0⟩ ⟨0, 1⟩).position.sub
            (mkVertex ⟨0, 0, 0⟩ ⟨0, 0⟩).position)).normalizeV },
       { mkVertex ⟨1, 0, 0⟩ ⟨1, 0⟩ with normal := (Vector3.cross
          ((mkVertex ⟨1, 0, 0⟩ ⟨1, 0⟩).position.sub (mkVertex ⟨0, 0, 0⟩ ⟨0, 0⟩).position)
          ((mkVertex ⟨0, 1, 0⟩ ⟨0, 1⟩).position.sub
            (mkVertex ⟨0, 0, 0⟩ ⟨0, 0⟩).position)).normalizeV },
       { mkVertex ⟨0, 1, 0⟩ ⟨0, 1⟩ with normal := (Vector3.cross
          ((mkVertex ⟨1, 0, 0⟩ ⟨1, 0⟩).position.sub (mkVertex ⟨0, 0, 0⟩ ⟨0, 0⟩).position)
          ((mkVertex ⟨0, 1, 0⟩ ⟨0, 1⟩).position.sub
            (mkVertex ⟨0, 0, 0⟩ ⟨0, 0⟩).position)).normalizeV }] :=
  ⟨by norm_num [mkVertex, Vector3.sub, Vector3.cross, Vector3.lengthSq],
    calculateNormals_flat_triangle sampleTriangleMesh _ _ _ 90 rfl rfl
      (by norm_num [mkVertex, Vector3.sub, Vector3.cross, Vector3.lengthSq])⟩

lemma loadFromFile_ok_shape (toks : List FileTok) (m2 : Mesh)
    (h : Mesh.loadFromFile toks = Except.ok m2) :
    m2.arrayDirtyMap = fun _ => true := by
  unfold Mesh.loadFromFile at h
  cases hp : parseMeshFile toks with
  | ok trip =>
    rw [hp] at h
    obtain ⟨t, vs, ps⟩ := trip
    cases h
    rfl
  | error e =>
    rw [hp] at h
    cases h

/-- Claim C1: cache coherence — a coherent mesh (every clean flag's cached
array equals the flattening of current data for that kind) stays coherent
under every operation of the public surface, and every geometry-mutating
operation that fires leaves every dirty flag set to true on return. -/
theorem cache_coherence (m : Mesh) (op : MeshOp) (hcoh : m.coherent) :
    (applyOp op m).coherent ∧
    (mutates op m = true → ∀ k : Fin 16, (applyOp op m).arrayDirtyMap k = true) := by
  cases op with
  | addPolygon p =>
    by_cases h : arityOk m.meshType p.vertexIndices.length = true
    · constructor
      · intro k hk
        rw [show applyOp (MeshOp.addPolygon p) m =
            { m with polygons := m.polygons ++ [p], arrayDirtyMap := fun _ => true } by
          simp [applyOp, Mesh.tryAddPolygon, Mesh.addPolygon, h]] at hk
        exact Bool.noConfusion hk
      · intro _ k
        simp [applyOp, Mesh.tryAddPolygon, Mesh.addPolygon, h]
    · have hf : arityOk m.meshType p.vertexIndices.length = false := by
        simpa using h
      constructor
      · have hid : applyOp (MeshOp.addPolygon p) m = m := by
          simp [applyOp, Mesh.tryAddPolygon, Mesh.addPolygon, hf]
        rw [hid]
        exact hcoh
      · intro hmut
        simp only [mutates] at hmut
        rw [hmut] at hf
        exact Bool.noConfusion hf
  | loadFromFile toks =>
    cases hload : Mesh.loadFromFile toks with
    | ok m2 =>
      have hdirty := loadFromFile_ok_shape toks m2 hload
      have happ : applyOp (MeshOp.loadFromFile toks) m = m2 := by
        simp [applyOp, Mesh.loadMeshInto, hload]
      constructor
      · intro k hk
        rw [happ, hdirty] at hk
        exact Bool.noConfusion hk
      · intro _ k
        rw [happ, hdirty]
    | error e =>
      have happ : applyOp (MeshOp.loadFromFile toks) m = m := by
        simp [applyOp, Mesh.loadMeshInto, hload]
      constructor
      · rw [happ]; exact hcoh
      · intro hmut
        simp [mutates, hload, Except.toBool] at hmut
  | rebuildArray k =>
    refine ⟨?_, fun hmut _ => by simp [mutates] at hmut⟩
    intro k2 hk2
    by_cases hkk : k2 = k
    · subst hkk
      show Function.update m.renderDataArrays k2 (some (attributeData m k2)) k2 =
        some (attributeData (m.rebuildArray k2) k2)
      rw [Function.update_same]
      rfl
    · have hdk : m.arrayDirtyMap k2 = false := by
        have hupd : Function.update m.arrayDirtyMap k false k2 = m.arrayDirtyMap k2 :=
          Function.update_noteq hkk false m.arrayDirtyMap
        rw [← hupd]
        exact hk2
      show Function.update m.renderDataArrays k (some (attributeData m k)) k2 =
        some (attributeData (m.rebuildArray k) k2)
      rw [Function.update_noteq hkk]
      exact hcoh k2 hdk
  | clearMesh => exact ⟨fun k hk => Bool.noConfusion hk, fun _ k => rfl⟩
  | setMeshType t => exact ⟨fun k hk => Bool.noConfusion hk, fun _ k => rfl⟩
  | createPlane w h => exact ⟨fun k hk => Bool.noConfusion hk, fun _ k => rfl⟩
  | createVPlane w h => exact ⟨fun k hk => Bool.noConfusion hk, fun _ k => rfl⟩
  | createTorus r tr rs ts => exact ⟨fun k hk => Bool.noConfusion hk, fun _ k => rfl⟩
  | createBox w d h => exact ⟨fun k hk => Bool.noConfusion hk, fun _ k => rfl⟩
  | createSphere r nr ns => exact ⟨fun k hk => Bool.noConfusion hk, fun _ k => rfl⟩
  | createCylinder h r ns c => exact ⟨fun k hk => Bool.noConfusion hk, fun _ k => rfl⟩
  | createCone h r ns => exact ⟨fun k hk => Bool.noConfusion hk, fun _ k => rfl⟩
  | calculateNormals s a => exact ⟨fun k hk => Bool.noConfusion hk, fun _ k => rfl⟩
  | calculateTangents => exact ⟨fun k hk => Bool.noConfusion hk, fun _ k => rfl⟩
  | recenterMesh => exact ⟨fun k hk => Bool.noConfusion hk, fun _ k => rfl⟩

/-- Witness for C1: the sample triangle mesh is coherent, and a setMeshType
call preserves coherence and leaves all flags dirty. -/
theorem cache_coherence_witness :
    sampleTriMesh.coherent ∧
    ((applyOp (MeshOp.setMeshType 2) sampleTriMesh).coherent ∧
      ∀ k : Fin 16, (applyOp (MeshOp.setMeshType 2) sampleTriMesh).arrayDirtyMap k = true) := by
  have h0 : sampleTriMesh.coherent := by decide
  have h1 := cache_coherence sampleTriMesh (MeshOp.setMeshType 2) h0
  exact ⟨h0, h1.1, h1.2 (by decide)⟩

lemma bind_ok {α β : Type} (a : α) (f : α → Except MeshError β) :
    Bind.bind (Except.ok a : Except MeshError α) f = f a := rfl

lemma bind_error {α β : Type} (e : MeshError) (f : α → Except MeshError β) :
    Bind.bind (Except.error e : Except MeshError α) f = Except.error e := rfl

lemma readVertex_writeVertex (v : Vertex) (rest : List FileTok) :
    readVertex (writeVertex v ++ rest) = Except.ok (v, rest) := rfl

lemma readVertices_flatMap (vs : List Vertex) (rest : List FileTok) :
    readVertices vs.length (vs.flatMap writeVertex ++ rest) = Except.ok (vs, rest) := by
  induction vs with
  | nil => rfl
  | cons v vs ih =>
    show readVertices (vs.length + 1) ((writeVertex v ++ vs.flatMap writeVertex) ++ rest) = _
    rw [List.append_assoc]
    simp only [readVertices, readVertex_writeVertex, bind_ok, ih]

lemma readIndices_natCast (is : List Nat) (nv : Int) (rest : List FileTok)
    (h : ∀ i ∈ is, (i : Int) < nv) :
    readIndices is.length nv (is.map (fun i : Nat => FileTok.int i) ++ rest) =
      Except.ok (is, rest) := by
  induction is with
  | nil => rfl
  | cons i is ih =>
    show readIndices (is.length + 1) nv (FileTok.int i :: (is.map _ ++ rest)) = _
    simp only [readIndices, readInt, bind_ok]
    rw [if_pos ⟨Int.natCast_nonneg i, h i (List.mem_cons_self i is)⟩]
    rw [ih (fun j hj => h j (List.mem_cons_of_mem i hj))]
    simp only [bind_ok, Int.toNat_natCast]

lemma readPolygons_flatMap (ps : List Polygon) (nv : Int) (rest : List FileTok)
    (h : ∀ p ∈ ps, ∀ i ∈ p.vertexIndices, (i : Int) < nv) :
    readPolygons ps.length nv (ps.flatMap writePolygon ++ rest) = Except.ok (ps, rest) := by
  induction ps with
  | nil => rfl
  | cons p ps ih =>
    show readPolygons (ps.length + 1) nv
      ((writePolygon p ++ ps.flatMap writePolygon) ++ rest) = _
    rw [List.append_assoc]
    show readPolygons (ps.length + 1) nv
      (FileTok.int p.vertexIndices.length ::
        (p.vertexIndices.map _ ++ (ps.flatMap writePolygon ++ rest))) = _
    simp only [readPolygons, readInt, bind_ok]
    rw [if_pos (Int.natCast_nonneg p.vertexIndices.length)]
    simp only [Int.toNat_natCast]
    rw [readIndices_natCast p.vertexIndices nv _
      (fun i hi => h p (List.mem_cons_self p ps) i hi)]
    rw [bind_ok, ih (fun q hq i hi => h q (List.mem_cons_of_mem p hq) i hi)]
    rfl

lemma parse_save (m : Mesh) (htype : 0 ≤ m.meshType ∧ m.meshType ≤ 6)
    (hidx : ∀ p ∈ m.polygons, ∀ i ∈ p.vertexIndices, i < m.vertices.length) :
    parseMeshFile m.saveToFile =
      Except.ok (m.meshType, m.vertices, m.polygons) := by
  show parseMeshFile (FileTok.int m.meshType :: FileTok.int m.polygons.length ::
    FileTok.int m.vertices.length ::
    (m.vertices.flatMap writeVertex ++ m.polygons.flatMap writePolygon)) = _
  simp only [parseMeshFile, readInt, bind_ok]
  rw [if_pos htype]
  try simp only [readInt, bind_ok]
  rw [if_pos ⟨Int.natCast_nonneg m.polygons.length, Int.natCast_nonneg m.vertices.length⟩]
  simp only [Int.toNat_natCast]
  rw [readVertices_flatMap m.vertices (m.polygons.flatMap writePolygon), bind_ok]
  rw [← List.append_nil (m.polygons.flatMap writePolygon)]
  rw [readPolygons_flatMap m.polygons _ []
    (fun p hp i hi => by exact_mod_cast hidx p hp i hi)]
  rfl

/-- Claim C2: round-trip persistence — saving a mesh and loading the result
succeeds and yields a mesh whose type, polygon count, vertex count,
per-polygon vertex-reference structure (shared indices included) and
per-vertex attributes are exactly those of the original. -/
theorem save_load_roundtrip (m : Mesh)
    (htype : 0 ≤ m.meshType ∧ m.meshType ≤ 6)
    (hidx : ∀ p ∈ m.polygons, ∀ i ∈ p.vertexIndices, i < m.vertices.length) :
    ∃ m2, Mesh.loadFromFile m.saveToFile = Except.ok m2 ∧
      m2.getMeshType = m.getMeshType ∧
      m2.getPolygonCount = m.getPolygonCount ∧
      m2.getVertexCount = m.getVertexCount ∧
      m2.polygons = m.polygons ∧
      m2.vertices = m.vertices := by
  refine ⟨freshMesh m.meshType m.vertices m.polygons, ?_, rfl, rfl, rfl, rfl, rfl⟩
  unfold Mesh.loadFromFile
  rw [parse_save m htype hidx]

/-- Witness for C2: round trip of the concrete right-triangle mesh. -/
theorem save_load_roundtrip_witness :
    (0 ≤ sampleTriangleMesh.meshType ∧ sampleTriangleMesh.meshType ≤ 6) ∧
    (∀ p ∈ sampleTriangleMesh.polygons, ∀ i ∈ p.vertexIndices,
      i < sampleTriangleMesh.vertices.length) ∧
    (∃ m2, Mesh.loadFromFile sampleTriangleMesh.saveToFile = Except.ok m2 ∧
      m2.getMeshType = sampleTriangleMesh.getMeshType ∧
      m2.getPolygonCount = sampleTriangleMesh.getPolygonCount ∧
      m2.getVertexCount = sampleTriangleMesh.getVertexCount ∧
      m2.polygons = sampleTriangleMesh.polygons ∧
      m2.vertices = sampleTriangleMesh.vertices) :=
  ⟨by decide, by decide, save_load_roundtrip sampleTriangleMesh (by decide) (by decide)⟩

lemma readIndices_ok_int (is : List Int) (nv : Int) (rest : List FileTok)
    (h : ∀ i ∈ is, 0 ≤ i ∧ i < nv) :
    readIndices is.length nv (is.map (fun i : Int => FileTok.int i) ++ rest) =
      Except.ok (is.map Int.toNat, rest) := by
  induction is with
  | nil => rfl
  | cons i is ih =>
    show readIndices (is.length + 1) nv (FileTok.int i :: (is.map _ ++ rest)) = _
    simp only [readIndices, readInt, bind_ok]
    rw [if_pos (h i (List.mem_cons_self i is))]
    rw [ih (fun j hj => h j (List.mem_cons_of_mem i hj))]
    rfl

lemma readIndices_bad (is : List Int) (nv : Int) (rest : List FileTok)
    (h : ∃ i ∈ is, i < 0 ∨ nv ≤ i) :
    readIndices is.length nv (is.map (fun i : Int => FileTok.int i) ++ rest) =
      Except.error MeshError.loadError := by
  induction is with
  | nil => simp at h
  | cons i is ih =>
    show readIndices (is.length + 1) nv (FileTok.int i :: (is.map _ ++ rest)) = _
    simp only [readIndices, readInt, bind_ok]
    by_cases hi : 0 ≤ i ∧ i < nv
    · rw [if_pos hi]
      have htail : ∃ j ∈ is, j < 0 ∨ nv ≤ j := by
        rcases h with ⟨j, hj, hbad⟩
        rcases List.mem_cons.mp hj with rfl | hj2
        · exfalso; rcases hbad with h1 | h1 <;> omega
        · exact ⟨j, hj2, hbad⟩
      rw [ih htail, bind_error]
    · rw [if_neg hi]

lemma readPolygons_bad (ps : List (Int × List Int)) (nv : Int) (rest : List FileTok)
    (hcnt : ∀ pr ∈ ps, pr.1 = (pr.2.length : Int))
    (hbad : ∃ pr ∈ ps, ∃ i ∈ pr.2, i < 0 ∨ nv ≤ i) :
    readPolygons ps.length nv
      (ps.flatMap
        (fun pr => FileTok.int pr.1 :: pr.2.map (fun i : Int => FileTok.int i)) ++ rest) =
      Except.error MeshError.loadError := by
  induction ps with
  | nil => simp at hbad
  | cons pr ps ih =>
    show readPolygons (ps.length + 1) nv
      (((FileTok.int pr.1 :: pr.2.map (fun i : Int => FileTok.int i)) ++
        ps.flatMap _) ++ rest) = _
    simp only [List.append_assoc, List.cons_append, readPolygons, readInt, bind_ok]
    rw [hcnt pr (List.mem_cons_self pr ps)]
    rw [if_pos (Int.natCast_nonneg pr.2.length)]
    simp only [Int.toNat_natCast]
    by_cases hbh : ∃ i ∈ pr.2, i < 0 ∨ nv ≤ i
    · rw [readIndices_bad pr.2 nv _ hbh, bind_error]
    · push_neg at hbh
      rw [readIndices_ok_int pr.2 nv _ (fun i hi => hbh i hi), bind_ok]
      have htail : ∃ q ∈ ps, ∃ i ∈ q.2, i < 0 ∨ nv ≤ i := by
        rcases hbad with ⟨q, hq, i, hiq, hib⟩
        rcases List.mem_cons.mp hq with rfl | hq2
        · exact absurd hib (by rcases hbh i hiq with ⟨h1, h2⟩; rw [not_or]; exact ⟨not_lt.mpr h1, not_le.mpr h2⟩)
        · exact ⟨q, hq2, i, hiq, hib⟩
      rw [ih (fun q hq => hcnt q (List.mem_cons_of_mem pr hq)) htail, bind_error]

/-- Claim C5: load validation and atomicity — a file whose header counts are
negative, or whose polygon table holds an index outside the vertex-table
bounds, makes loadFromFile fail with LoadError, and the mesh being loaded
into is left unchanged by the failed load. -/
theorem load_validation (t np nv : Int) (vs : List Vertex) (ps : List (Int × List Int))
    (m : Mesh) (htype : 0 ≤ t ∧ t ≤ 6)
    (hbad : np < 0 ∨ nv < 0 ∨
      (np = (ps.length : Int) ∧ nv = (vs.length : Int) ∧
        (∀ pr ∈ ps, pr.1 = (pr.2.length : Int)) ∧
        ∃ pr ∈ ps, ∃ i ∈ pr.2, i < 0 ∨ nv ≤ i)) :
    Mesh.loadFromFile (encodeFile t np nv vs ps) = Except.error MeshError.loadError ∧
    Mesh.loadMeshInto (encodeFile t np nv vs ps) m = m := by
  have hparse : parseMeshFile (encodeFile t np nv vs ps) =
      Except.error MeshError.loadError := by
    show parseMeshFile (FileTok.int t :: FileTok.int np :: FileTok.int nv :: _) = _
    simp only [parseMeshFile, readInt, bind_ok]
    rw [if_pos htype]
    try simp only [readInt, bind_ok]
    rcases hbad with hnp | hnv | ⟨hnp, hnv, hcnt, hbadidx⟩
    · rw [if_neg (fun hc => by omega)]
    · rw [if_neg (fun hc => by omega)]
    · subst hnp
      subst hnv
      rw [if_pos ⟨Int.natCast_nonneg ps.length, Int.natCast_nonneg vs.length⟩]
      simp only [Int.toNat_natCast]
      rw [readVertices_flatMap vs _, bind_ok]
      rw [← List.append_nil (ps.flatMap _)]
      rw [readPolygons_bad ps _ [] hcnt hbadidx]
      rfl
  refine ⟨?_, ?_⟩
  · unfold Mesh.loadFromFile
    rw [hparse]
  · unfold Mesh.loadMeshInto Mesh.loadFromFile
    rw [hparse]

/-- Witness for C5: a one-polygon file whose single index 0 is out of bounds
for an empty vertex table. -/
theorem load_validation_witness :
    (0 ≤ (1 : Int) ∧ (1 : Int) ≤ 6) ∧
    ((1 : Int) = ((([((1 : Int), [(0 : Int)])]).length : Int)) ∧
      (0 : Int) = ((([] : List Vertex).length : Int)) ∧
      (∀ pr ∈ [((1 : Int), [(0 : Int)])], pr.1 = (pr.2.length : Int)) ∧
      ∃ pr ∈ [((1 : Int), [(0 : Int)])], ∃ i ∈ pr.2, i < 0 ∨ (0 : Int) ≤ i) ∧
    (Mesh.loadFromFile (encodeFile 1 1 0 [] [((1 : Int), [(0 : Int)])]) =
        Except.error MeshError.loadError ∧
      Mesh.loadMeshInto (encodeFile 1 1 0 [] [((1 : Int), [(0 : Int)])]) sampleTriMesh =
        sampleTriMesh) :=
  ⟨by decide, by decide,
    load_validation 1 1 0 [] [((1 : Int), [(0 : Int)])] sampleTriMesh (by decide)
      (Or.inr (Or.inr (by decide)))⟩

end Polycode
